import Mathlib

/-!
Verification of the DBBT analytics feature-derivation and aggregation
pipeline: a shallow embedding of `src/data_loader.py` (`load_data`) and
`src/utils.py` (`calculate_conversion_rate`), together with the shared
top-N view pattern of `src/tabs/trip_characteristics.py` and
`src/tabs/advanced_visualizations.py`, and proofs of the specified
properties of these functions.
-/

namespace DBBT

/-- A point in time at day granularity, as produced by the datetime parser:
the calendar year and month (consumed by the `%Y-%m` formatting of
`year_month`) together with an absolute day index used for the day-difference
arithmetic of `trip_duration` and `booking_window`. -/
structure Timestamp where
  year : Nat
  month : Nat
  dayIndex : Int
deriving DecidableEq, Repr

/-- A raw date cell before conversion: parseable text, an empty cell, or
malformed text. -/
inductive RawDate where
  | valid (t : Timestamp)
  | missing
  | malformed
deriving DecidableEq, Repr

/-- Model of `pd.to_datetime` with the default `errors="raise"` (used for the
`date_time` column): malformed text raises, an empty cell becomes `NaT`
(modelled as `none`). -/
def toDatetimeRaise : RawDate → Except Unit (Option Timestamp)
  | .valid t => .ok (some t)
  | .missing => .ok none
  | .malformed => .error ()

/-- Model of `pd.to_datetime` with `errors="coerce"` (used for the `srch_ci`
and `srch_co` columns): malformed text and empty cells both become `NaT`. -/
def toDatetimeCoerce : RawDate → Option Timestamp
  | .valid t => some t
  | _ => none

/-- One row of `travel.csv`, restricted to the columns the pipeline under
verification reads.  The 0/1 integer columns `is_mobile` and `is_package` are
kept as numbers because `load_data` maps them through a `{1: _, 0: _}`
dictionary; `is_booking` is only ever counted and summed, so its 0/1 value is
carried as the flag it encodes. -/
structure RawRecord where
  date_time : RawDate
  srch_ci : RawDate
  srch_co : RawDate
  is_mobile : Nat
  is_package : Nat
  is_booking : Bool
  srch_adults_cnt : Nat
  srch_children_cnt : Nat
  orig_destination_distance : Option ℚ
  user_location_country : Nat
  hotel_market : Nat
deriving DecidableEq, Repr

/-- Zero-pad a natural number to two digits, as `%m` does. -/
def pad2 (n : Nat) : String :=
  if n < 10 then "0" ++ toString n else toString n

/-- Zero-pad a natural number to four digits, as `%Y` does. -/
def pad4 (n : Nat) : String :=
  if n < 10 then "000" ++ toString n
  else if n < 100 then "00" ++ toString n
  else if n < 1000 then "0" ++ toString n
  else toString n

/-- Formatting `strftime("%Y-%m")` on a parsed timestamp. -/
def strftimeYM (t : Timestamp) : String :=
  pad4 t.year ++ "-" ++ pad2 t.month

/-- The `travel_group` assignment: `np.select` over the five conditions with
default `"Other"`, i.e. the first matching condition wins. -/
def travelGroup (a c : Nat) : String :=
  if a = 1 ∧ c = 0 then "Solo"
  else if a = 2 ∧ c = 0 then "Couple"
  else if a = 1 ∧ 0 < c then "Single Parent"
  else if a = 2 ∧ 0 < c then "Family"
  else if 2 < a then "Group"
  else "Other"

/-- The `duration_category` ladder: `np.select` with default `np.nan`.  A
`NaN` duration fails every comparison, so it falls to the default. -/
def durationCategory : Option Int → Option String
  | none => none
  | some d =>
    if d ≤ 3 then some "1-3 days"
    else if d ≤ 7 then some "4-7 days"
    else if d ≤ 14 then some "8-14 days"
    else if 14 < d then some "15+ days"
    else none

/-- The `window_category` ladder: `np.select` with default `np.nan`. -/
def windowCategory : Option Int → Option String
  | none => none
  | some w =>
    if w < 7 then some "0-6 days"
    else if w < 14 then some "7-13 days"
    else if w < 30 then some "14-29 days"
    else if w < 60 then some "30-59 days"
    else if w < 90 then some "60-89 days"
    else if 90 ≤ w then some "90+ days"
    else none

/-- The `device_package` column: each flag goes through a `{1: _, 0: _}` map
(`NaN`, i.e. `none`, for any other value) and the two strings are joined with
`", "`; string concatenation with `NaN` is `NaN`. -/
def devicePackage (m p : Nat) : Option String :=
  match (if m = 1 then some "Mobile" else if m = 0 then some "Desktop" else none),
        (if p = 1 then some "Package" else if p = 0 then some "Non-Package" else none) with
  | some a, some b => some (a ++ ", " ++ b)
  | _, _ => none

/-- The `distance_category` ladder: `np.select` with default `np.nan`. -/
def distanceCategory : Option ℚ → Option String
  | none => none
  | some x =>
    if x < 100 then some "< 100"
    else if x < 500 then some "100-500"
    else if x < 1000 then some "500-1000"
    else if x < 2000 then some "1000-2000"
    else if 2000 ≤ x then some "> 2000"
    else none

/-- A row of the enriched dataframe returned by `load_data`: the parsed date
columns, the untouched base columns, and the derived columns. -/
structure EnrichedRecord where
  date_time : Option Timestamp
  srch_ci : Option Timestamp
  srch_co : Option Timestamp
  is_mobile : Nat
  is_package : Nat
  is_booking : Bool
  srch_adults_cnt : Nat
  srch_children_cnt : Nat
  orig_destination_distance : Option ℚ
  user_location_country : Nat
  hotel_market : Nat
  year_month : Option String
  trip_duration : Option Int
  booking_window : Option Int
  travel_group : String
  duration_category : Option String
  window_category : Option String
  device_package : Option String
  distance_category : Option String
deriving DecidableEq, Repr

/-- The per-row effect of the derivation steps of `load_data`, given the
already-converted date cells.  `strftime` on `NaT` yields `NaN`; a timedelta
with a `NaT` endpoint is `NaT`, so its `.days` is `NaN`. -/
def enrichRow (r : RawRecord) : EnrichedRecord :=
  let dt := toDatetimeCoerce r.date_time
  let ci := toDatetimeCoerce r.srch_ci
  let co := toDatetimeCoerce r.srch_co
  let trip : Option Int :=
    match co, ci with
    | some co, some ci => some (co.dayIndex - ci.dayIndex)
    | _, _ => none
  let window : Option Int :=
    match ci, dt with
    | some ci, some dt => some (ci.dayIndex - dt.dayIndex)
    | _, _ => none
  { date_time := dt
    srch_ci := ci
    srch_co := co
    is_mobile := r.is_mobile
    is_package := r.is_package
    is_booking := r.is_booking
    srch_adults_cnt := r.srch_adults_cnt
    srch_children_cnt := r.srch_children_cnt
    orig_destination_distance := r.orig_destination_distance
    user_location_country := r.user_location_country
    hotel_market := r.hotel_market
    year_month := dt.map strftimeYM
    trip_duration := trip
    booking_window := window
    travel_group := travelGroup r.srch_adults_cnt r.srch_children_cnt
    duration_category := durationCategory trip
    window_category := windowCategory window
    device_package := devicePackage r.is_mobile r.is_package
    distance_category := distanceCategory r.orig_destination_distance }

/-- Function `load_data` of `src/data_loader.py`, after the CSV has been read: the
column-wise `pd.to_datetime(df[date_time])` (default `errors="raise"`) fails
the whole call as soon as any cell of the column is malformed; otherwise every
row is enriched.  On a column with no malformed cell the raise-mode conversion
agrees with the coerce-mode one, which is why the success branch can reuse
`toDatetimeCoerce` for all three columns. -/
def load_data (rows : List RawRecord) : Except Unit (List EnrichedRecord) :=
  if rows.any fun r => r.date_time = RawDate.malformed then Except.error ()
  else Except.ok (rows.map enrichRow)

/-- One output row of `calculate_conversion_rate`. -/
structure GroupRow (K : Type) where
  key : K
  searches : Nat
  bookings : Nat
  conversion_rate : ℚ
deriving DecidableEq, Repr

/-- The group keys produced by `df.groupby(col)`: the distinct non-null
values of the column, in ascending order (pandas defaults `dropna=True`,
`sort=True`). -/
def groupKeys {K : Type} [LinearOrder K] (key : EnrichedRecord → Option K)
    (df : List EnrichedRecord) : List K :=
  List.insertionSort (· ≤ ·) (df.filterMap key).dedup

/-- The aggregation row built for one group key `k`: the partition is
`df.filter (key · = some k)`; `searches` is the `count` aggregation of
`is_booking` — the number of non-null cells of a mandatory column, i.e. the
partition size — `bookings` is its `sum` — the number of set 0/1 flags — and
`conversion_rate = (bookings / searches) * 100`. -/
def groupRowFor {K : Type} [LinearOrder K] (key : EnrichedRecord → Option K)
    (df : List EnrichedRecord) (k : K) : GroupRow K :=
  { key := k
    searches := (df.filter fun r => key r = some k).length
    bookings := (df.filter fun r => key r = some k).countP fun r => r.is_booking
    conversion_rate :=
      (((df.filter fun r => key r = some k).countP fun r => r.is_booking : ℕ) : ℚ)
        / (((df.filter fun r => key r = some k).length : ℕ) : ℚ) * 100 }

/-- Function `calculate_conversion_rate` of `src/utils.py`.  The grouping column is
abstracted as an optional projection (`none` embeds a null cell, which
`groupby` drops): one aggregation row per distinct non-null key value. -/
def calculate_conversion_rate {K : Type} [LinearOrder K]
    (key : EnrichedRecord → Option K) (df : List EnrichedRecord) :
    List (GroupRow K) :=
  (groupKeys key df).map (groupRowFor key df)

/-- The descending-conversion-rate order used by the top-N views'
`sort_values(ascending=False)`. -/
def rateGE {K : Type} (a b : GroupRow K) : Prop :=
  b.conversion_rate ≤ a.conversion_rate

instance {K : Type} : DecidableRel (rateGE (K := K)) := fun a b =>
  inferInstanceAs (Decidable (b.conversion_rate ≤ a.conversion_rate))

/-- The top-N view pattern shared by `trip_characteristics.py` (line 103) and
`advanced_visualizations.py` (lines 171 and 398):
`data[data.searches >= 100].sort_values(conversion_rate, ascending=False).head(n)`. -/
def topNByConversionRate {K : Type} (n : Nat) (rows : List (GroupRow K)) :
    List (GroupRow K) :=
  (List.insertionSort rateGE (rows.filter fun g => 100 ≤ g.searches)).take n

/-! ### Definitional projection lemmas for `enrichRow` -/

lemma enrichRow_trip_duration (r : RawRecord) :
    (enrichRow r).trip_duration =
      match toDatetimeCoerce r.srch_co, toDatetimeCoerce r.srch_ci with
      | some co, some ci => some (co.dayIndex - ci.dayIndex)
      | _, _ => none := rfl

lemma enrichRow_booking_window (r : RawRecord) :
    (enrichRow r).booking_window =
      match toDatetimeCoerce r.srch_ci, toDatetimeCoerce r.date_time with
      | some ci, some dt => some (ci.dayIndex - dt.dayIndex)
      | _, _ => none := rfl

lemma enrichRow_duration_category (r : RawRecord) :
    (enrichRow r).duration_category = durationCategory (enrichRow r).trip_duration := rfl

lemma enrichRow_window_category (r : RawRecord) :
    (enrichRow r).window_category = windowCategory (enrichRow r).booking_window := rfl

lemma enrichRow_device_package (r : RawRecord) :
    (enrichRow r).device_package = devicePackage r.is_mobile r.is_package := rfl

lemma enrichRow_travel_group (r : RawRecord) :
    (enrichRow r).travel_group = travelGroup r.srch_adults_cnt r.srch_children_cnt := rfl

/-! ### C6 -/

/-- C6: aggregating an empty record collection with any grouping key returns
an empty summary (zero groups); the computation is total, so no error and no
division-by-zero fault can occur. -/
theorem C6_empty_input_yields_empty_summary {K : Type} [LinearOrder K]
    (key : EnrichedRecord → Option K) :
    calculate_conversion_rate key [] = [] := rfl

/-! ### C3 -/

/-- C3: the `travel_group` classification assigns the label of the first
matching rule, the five guarded rules are pairwise mutually exclusive over
all non-negative adult/child counts, a record matching none of them gets
`"Other"`, and every record receives one of the six labels. -/
theorem C3_travel_group_classification (a c : Nat) :
    ((a = 1 ∧ c = 0) → travelGroup a c = "Solo") ∧
    ((a = 2 ∧ c = 0) → travelGroup a c = "Couple") ∧
    ((a = 1 ∧ 0 < c) → travelGroup a c = "Single Parent") ∧
    ((a = 2 ∧ 0 < c) → travelGroup a c = "Family") ∧
    (2 < a → travelGroup a c = "Group") ∧
    (¬(a = 1 ∧ c = 0) → ¬(a = 2 ∧ c = 0) → ¬(a = 1 ∧ 0 < c) →
      ¬(a = 2 ∧ 0 < c) → ¬(2 < a) → travelGroup a c = "Other") ∧
    (¬((a = 1 ∧ c = 0) ∧ (a = 2 ∧ c = 0))) ∧
    (¬((a = 1 ∧ c = 0) ∧ (a = 1 ∧ 0 < c))) ∧
    (¬((a = 1 ∧ c = 0) ∧ (a = 2 ∧ 0 < c))) ∧
    (¬((a = 1 ∧ c = 0) ∧ 2 < a)) ∧
    (¬((a = 2 ∧ c = 0) ∧ (a = 1 ∧ 0 < c))) ∧
    (¬((a = 2 ∧ c = 0) ∧ (a = 2 ∧ 0 < c))) ∧
    (¬((a = 2 ∧ c = 0) ∧ 2 < a)) ∧
    (¬((a = 1 ∧ 0 < c) ∧ (a = 2 ∧ 0 < c))) ∧
    (¬((a = 1 ∧ 0 < c) ∧ 2 < a)) ∧
    (¬((a = 2 ∧ 0 < c) ∧ 2 < a)) ∧
    (travelGroup a c = "Solo" ∨ travelGroup a c = "Couple" ∨
     travelGroup a c = "Single Parent" ∨ travelGroup a c = "Family" ∨
     travelGroup a c = "Group" ∨ travelGroup a c = "Other") := by
  unfold travelGroup
  refine ⟨?_, ?_, ?_, ?_, ?_, ?_, by omega, by omega, by omega, by omega, by omega,
    by omega, by omega, by omega, by omega, by omega, ?_⟩ <;>
    split_ifs <;> simp_all

/-- Concrete instance of C3: one representative record per rule. -/
theorem C3_travel_group_classification_witness :
    travelGroup 1 0 = "Solo" ∧ travelGroup 2 0 = "Couple" ∧
    travelGroup 1 2 = "Single Parent" ∧ travelGroup 2 1 = "Family" ∧
    travelGroup 5 0 = "Group" ∧ travelGroup 0 0 = "Other" :=
  ⟨(C3_travel_group_classification 1 0).1 ⟨rfl, rfl⟩,
   (C3_travel_group_classification 2 0).2.1 ⟨rfl, rfl⟩,
   (C3_travel_group_classification 1 2).2.2.1 ⟨rfl, by omega⟩,
   (C3_travel_group_classification 2 1).2.2.2.1 ⟨rfl, by omega⟩,
   (C3_travel_group_classification 5 0).2.2.2.2.1 (by omega),
   (C3_travel_group_classification 0 0).2.2.2.2.2.1
     (by omega) (by omega) (by omega) (by omega) (by omega)⟩

/-! ### C10 -/

/-- C10: the category ladders clamp defined values that lie below the lowest
threshold into the lowest bucket: a defined negative `booking_window` yields
`window_category = "0-6 days"`, and a defined non-positive `trip_duration`
yields `duration_category = "1-3 days"`. -/
theorem C10_ladders_clamp_below_lowest_threshold (r : RawRecord) :
    (∀ w : Int, (enrichRow r).booking_window = some w → w < 0 →
      (enrichRow r).window_category = some "0-6 days") ∧
    (∀ d : Int, (enrichRow r).trip_duration = some d → d ≤ 0 →
      (enrichRow r).duration_category = some "1-3 days") := by
  constructor
  · intro w hw hneg
    rw [enrichRow_window_category, hw]
    simp only [windowCategory]
    rw [if_pos (by omega)]
  · intro d hd hnonpos
    rw [enrichRow_duration_category, hd]
    simp only [durationCategory]
    rw [if_pos (by omega)]

/-- A record whose check-in precedes the search timestamp and whose check-out
precedes the check-in. -/
def rowClamp : RawRecord :=
  { date_time := .valid ⟨2015, 6, 100⟩
    srch_ci := .valid ⟨2015, 5, 90⟩
    srch_co := .valid ⟨2015, 5, 88⟩
    is_mobile := 0
    is_package := 0
    is_booking := false
    srch_adults_cnt := 2
    srch_children_cnt := 0
    orig_destination_distance := none
    user_location_country := 66
    hotel_market := 628 }

/-- Concrete instance of C10: `booking_window = -10` lands in `"0-6 days"`
and `trip_duration = -2` lands in `"1-3 days"`. -/
theorem C10_ladders_clamp_below_lowest_threshold_witness :
    (enrichRow rowClamp).booking_window = some (-10) ∧ (-10 : Int) < 0 ∧
    (enrichRow rowClamp).window_category = some "0-6 days" ∧
    (enrichRow rowClamp).trip_duration = some (-2) ∧ (-2 : Int) ≤ 0 ∧
    (enrichRow rowClamp).duration_category = some "1-3 days" :=
  ⟨by decide, by decide,
   (C10_ladders_clamp_below_lowest_threshold rowClamp).1 (-10) (by decide) (by decide),
   by decide, by decide,
   (C10_ladders_clamp_below_lowest_threshold rowClamp).2 (-2) (by decide) (by decide)⟩

/-! ### C4 -/

/-- C4: `duration_category` is defined exactly when `trip_duration` is, and a
defined duration falls in the ladder bucket given by the first matching upper
bound; likewise `window_category` is defined exactly when `booking_window`
is, with its own ladder.  The buckets are characterised by the intervals they
cover, so each defined value matches exactly one bucket. -/
theorem C4_category_ladders (r : RawRecord) :
    ((enrichRow r).duration_category.isSome ↔ (enrichRow r).trip_duration.isSome) ∧
    (∀ d : Int, (enrichRow r).trip_duration = some d →
      (((enrichRow r).duration_category = some "1-3 days") ↔ d ≤ 3) ∧
      (((enrichRow r).duration_category = some "4-7 days") ↔ (3 < d ∧ d ≤ 7)) ∧
      (((enrichRow r).duration_category = some "8-14 days") ↔ (7 < d ∧ d ≤ 14)) ∧
      (((enrichRow r).duration_category = some "15+ days") ↔ 14 < d)) ∧
    ((enrichRow r).window_category.isSome ↔ (enrichRow r).booking_window.isSome) ∧
    (∀ w : Int, (enrichRow r).booking_window = some w →
      (((enrichRow r).window_category = some "0-6 days") ↔ w < 7) ∧
      (((enrichRow r).window_category = some "7-13 days") ↔ (7 ≤ w ∧ w < 14)) ∧
      (((enrichRow r).window_category = some "14-29 days") ↔ (14 ≤ w ∧ w < 30)) ∧
      (((enrichRow r).window_category = some "30-59 days") ↔ (30 ≤ w ∧ w < 60)) ∧
      (((enrichRow r).window_category = some "60-89 days") ↔ (60 ≤ w ∧ w < 90)) ∧
      (((enrichRow r).window_category = some "90+ days") ↔ 90 ≤ w)) := by
  refine ⟨?_, ?_, ?_, ?_⟩
  · rw [enrichRow_duration_category]
    cases h : (enrichRow r).trip_duration with
    | none => simp [durationCategory]
    | some d =>
      simp only [durationCategory, Option.isSome_some, iff_true]
      split_ifs with h1 h2 h3 h4 <;> first | rfl | omega
  · intro d hd
    rw [enrichRow_duration_category, hd]
    simp only [durationCategory]
    refine ⟨?_, ?_, ?_, ?_⟩ <;> split_ifs <;> simp_all <;> omega
  · rw [enrichRow_window_category]
    cases h : (enrichRow r).booking_window with
    | none => simp [windowCategory]
    | some w =>
      simp only [windowCategory, Option.isSome_some, iff_true]
      split_ifs <;> first | rfl | omega
  · intro w hw
    rw [enrichRow_window_category, hw]
    simp only [windowCategory]
    refine ⟨?_, ?_, ?_, ?_, ?_, ?_⟩ <;> split_ifs <;> simp_all <;> omega

/-- A record searched 10 days before a 3-day stay. -/
def rowShortTrip : RawRecord :=
  { date_time := .valid ⟨2014, 11, 60⟩
    srch_ci := .valid ⟨2014, 11, 70⟩
    srch_co := .valid ⟨2014, 11, 73⟩
    is_mobile := 0
    is_package := 1
    is_booking := true
    srch_adults_cnt := 2
    srch_children_cnt := 0
    orig_destination_distance := some (2234 / 10)
    user_location_country := 66
    hotel_market := 675 }

/-- Concrete instance of C4: duration 3 lands in `"1-3 days"` (not in
`"4-7 days"`), and window 10 lands in `"7-13 days"`. -/
theorem C4_category_ladders_witness :
    (enrichRow rowShortTrip).trip_duration = some 3 ∧
    (enrichRow rowShortTrip).duration_category = some "1-3 days" ∧
    ¬((enrichRow rowShortTrip).duration_category = some "4-7 days") ∧
    (enrichRow rowShortTrip).booking_window = some 10 ∧
    (enrichRow rowShortTrip).window_category = some "7-13 days" :=
  ⟨by decide, (((C4_category_ladders rowShortTrip).2.1 3 (by decide)).1).mpr (by decide),
   fun h => by
     have := (((C4_category_ladders rowShortTrip).2.1 3 (by decide)).2.1).mp h
     omega,
   by decide, (((C4_category_ladders rowShortTrip).2.2.2 10 (by decide)).2.1).mpr (by decide)⟩

/-! ### C1 -/

/-- A record whose `date_time` cell is malformed but whose other date cells
are fine. -/
def rowBadEventTime : RawRecord :=
  { date_time := .malformed
    srch_ci := .valid ⟨2015, 1, 200⟩
    srch_co := .valid ⟨2015, 1, 204⟩
    is_mobile := 0
    is_package := 0
    is_booking := false
    srch_adults_cnt := 1
    srch_children_cnt := 0
    orig_destination_distance := some 312
    user_location_country := 205
    hotel_market := 27 }

/-- C1 counterexample: a single record with an unparseable `date_time`
(`eventTimestamp`) makes the whole load fail, because the `date_time` column
is converted with the default `errors="raise"`; no enriched collection is
returned. -/
theorem C1_unparseable_event_time_fails_load :
    load_data [rowBadEventTime] = Except.error () := rfl

/-- C1 as amended: when no record's `eventTimestamp` cell is malformed, the
load returns the full enriched collection, and a record whose `checkIn` or
`checkOut` fails to parse has its dependent derived fields undefined while
the record itself is retained. -/
theorem C1_malformed_checkin_checkout_recovered_locally (rows : List RawRecord)
    (h : ∀ r ∈ rows, r.date_time ≠ RawDate.malformed) :
    load_data rows = Except.ok (rows.map enrichRow) ∧
    ∀ r ∈ rows,
      (toDatetimeCoerce r.srch_ci = none →
        (enrichRow r).booking_window = none ∧ (enrichRow r).trip_duration = none ∧
        (enrichRow r).window_category = none ∧ (enrichRow r).duration_category = none) ∧
      (toDatetimeCoerce r.srch_co = none →
        (enrichRow r).trip_duration = none ∧ (enrichRow r).duration_category = none) := by
  constructor
  · unfold load_data
    rw [if_neg]
    simp only [List.any_eq_true, decide_eq_true_eq, not_exists, not_and]
    intro r hr
    exact h r hr
  · intro r _
    constructor
    · intro hci
      have hbw : (enrichRow r).booking_window = none := by
        rw [enrichRow_booking_window, hci]
      have htd : (enrichRow r).trip_duration = none := by
        rw [enrichRow_trip_duration, hci]
        cases toDatetimeCoerce r.srch_co <;> rfl
      refine ⟨hbw, htd, ?_, ?_⟩
      · rw [enrichRow_window_category, hbw]; rfl
      · rw [enrichRow_duration_category, htd]; rfl
    · intro hco
      have htd : (enrichRow r).trip_duration = none := by
        rw [enrichRow_trip_duration, hco]
      refine ⟨htd, ?_⟩
      rw [enrichRow_duration_category, htd]; rfl

/-- A record whose `srch_ci` cell is malformed. -/
def rowBadCheckIn : RawRecord :=
  { date_time := .valid ⟨2014, 8, 30⟩
    srch_ci := .malformed
    srch_co := .valid ⟨2014, 9, 45⟩
    is_mobile := 1
    is_package := 0
    is_booking := false
    srch_adults_cnt := 3
    srch_children_cnt := 1
    orig_destination_distance := none
    user_location_country := 69
    hotel_market := 110 }

/-- Concrete instance of the amended C1: a batch holding a record with a
malformed `srch_ci` still loads whole, and that record's derived
date-dependent fields are undefined. -/
theorem C1_malformed_checkin_checkout_recovered_locally_witness :
    (∀ r ∈ [rowBadCheckIn, rowShortTrip], r.date_time ≠ RawDate.malformed) ∧
    load_data [rowBadCheckIn, rowShortTrip] =
      Except.ok ([rowBadCheckIn, rowShortTrip].map enrichRow) ∧
    toDatetimeCoerce rowBadCheckIn.srch_ci = none ∧
    (enrichRow rowBadCheckIn).booking_window = none ∧
    (enrichRow rowBadCheckIn).trip_duration = none ∧
    (enrichRow rowBadCheckIn).window_category = none ∧
    (enrichRow rowBadCheckIn).duration_category = none := by
  have hmain := C1_malformed_checkin_checkout_recovered_locally
    [rowBadCheckIn, rowShortTrip] (by decide)
  have hrec := (hmain.2 rowBadCheckIn (by decide)).1 (by decide)
  exact ⟨by decide, hmain.1, by decide, hrec.1, hrec.2.1, hrec.2.2.1, hrec.2.2.2⟩

/-! ### C7 -/

/-- C7: for every record whose `is_mobile` and `is_package` flags are 0/1
encoded, `device_package` is defined and is one of the four fixed strings,
whatever the record's date and distance fields are. -/
theorem C7_device_package_always_defined (r : RawRecord)
    (hm : r.is_mobile = 0 ∨ r.is_mobile = 1)
    (hp : r.is_package = 0 ∨ r.is_package = 1) :
    ∃ s : String, (enrichRow r).device_package = some s ∧
      (s = "Mobile, Package" ∨ s = "Mobile, Non-Package" ∨
       s = "Desktop, Package" ∨ s = "Desktop, Non-Package") := by
  rw [enrichRow_device_package]
  rcases hm with hm | hm <;> rcases hp with hp | hp <;>
    rw [hm, hp] <;> exact ⟨_, rfl, by simp⟩

/-- A mobile package booking whose date cells are all malformed and whose
distance is missing. -/
def rowBadDates : RawRecord :=
  { date_time := .malformed
    srch_ci := .malformed
    srch_co := .malformed
    is_mobile := 1
    is_package := 1
    is_booking := true
    srch_adults_cnt := 1
    srch_children_cnt := 0
    orig_destination_distance := none
    user_location_country := 3
    hotel_market := 1385 }

/-- Concrete instance of C7: even with every timestamp malformed and the
distance missing, `device_package` is `"Mobile, Package"`. -/
theorem C7_device_package_always_defined_witness :
    (rowBadDates.is_mobile = 0 ∨ rowBadDates.is_mobile = 1) ∧
    (rowBadDates.is_package = 0 ∨ rowBadDates.is_package = 1) ∧
    ∃ s : String, (enrichRow rowBadDates).device_package = some s ∧
      (s = "Mobile, Package" ∨ s = "Mobile, Non-Package" ∨
       s = "Desktop, Package" ∨ s = "Desktop, Non-Package") :=
  ⟨Or.inr rfl, Or.inr rfl,
   C7_device_package_always_defined rowBadDates (Or.inr rfl) (Or.inr rfl)⟩

/-! ### Aggregation lemmas -/

lemma mem_groupKeys {K : Type} [LinearOrder K] (key : EnrichedRecord → Option K)
    (df : List EnrichedRecord) (k : K) :
    k ∈ groupKeys key df ↔ ∃ r ∈ df, key r = some k := by
  unfold groupKeys
  rw [(List.perm_insertionSort _ _).mem_iff, List.mem_dedup, List.mem_filterMap]

lemma nodup_groupKeys {K : Type} [LinearOrder K] (key : EnrichedRecord → Option K)
    (df : List EnrichedRecord) : (groupKeys key df).Nodup :=
  ((List.perm_insertionSort _ _).nodup_iff).mpr (List.nodup_dedup _)

lemma sorted_groupKeys {K : Type} [LinearOrder K] (key : EnrichedRecord → Option K)
    (df : List EnrichedRecord) : (groupKeys key df).Sorted (· ≤ ·) :=
  List.sorted_insertionSort _ _

lemma groupKeys_perm {K : Type} [LinearOrder K] (key : EnrichedRecord → Option K)
    {df df' : List EnrichedRecord} (h : df.Perm df') :
    groupKeys key df = groupKeys key df' :=
  List.eq_of_perm_of_sorted
    (((List.perm_insertionSort _ _).trans ((h.filterMap key).dedup)).trans
      (List.perm_insertionSort _ _).symm)
    (sorted_groupKeys key df) (sorted_groupKeys key df')

lemma ccr_map_key {K : Type} [LinearOrder K] (key : EnrichedRecord → Option K)
    (df : List EnrichedRecord) :
    (calculate_conversion_rate key df).map GroupRow.key = groupKeys key df := by
  unfold calculate_conversion_rate
  rw [List.map_map]
  have : GroupRow.key ∘ groupRowFor key df = fun k => k := rfl
  rw [this, List.map_id']

lemma sum_map_ite_eq {K : Type} [DecidableEq K] (keys : List K) (hnd : keys.Nodup)
    (k0 : K) (hmem : k0 ∈ keys) (n : ℕ) :
    (keys.map fun k => if k0 = k then n else 0).sum = n := by
  induction keys with
  | nil => cases hmem
  | cons a as ih =>
    rw [List.map_cons, List.sum_cons]
    rcases List.nodup_cons.mp hnd with ⟨ha, hnd'⟩
    by_cases hk : k0 = a
    · subst hk
      rw [if_pos rfl]
      have hz : (as.map fun k => if k0 = k then n else 0) = as.map fun _ => 0 := by
        apply List.map_congr_left
        intro x hx
        rw [if_neg]
        intro he
        cases he
        exact ha hx
      simp [hz]
    · rw [if_neg hk]
      have hmem' : k0 ∈ as := (List.mem_cons.mp hmem).resolve_left hk
      simp [ih hnd' hmem']

lemma sum_map_add_distrib {K : Type} (l : List K) (f g : K → ℕ) :
    (l.map fun k => f k + g k).sum = (l.map f).sum + (l.map g).sum := by
  induction l with
  | nil => rfl
  | cons a as ih =>
    simp only [List.map_cons, List.sum_cons, ih]
    omega

lemma countP_partition_sum {K : Type} [DecidableEq K]
    (key : EnrichedRecord → Option K) (p : EnrichedRecord → Bool)
    (df : List EnrichedRecord) (keys : List K) (hnd : keys.Nodup)
    (hcov : ∀ r ∈ df, ∀ k, key r = some k → k ∈ keys) :
    (keys.map fun k => df.countP fun r => p r && decide (key r = some k)).sum
      = df.countP fun r => p r && (key r).isSome := by
  induction df with
  | nil => simp
  | cons r rest ih =>
    have hcov' : ∀ x ∈ rest, ∀ k, key x = some k → k ∈ keys :=
      fun x hx => hcov x (List.mem_cons_of_mem _ hx)
    simp only [List.countP_cons]
    rw [sum_map_add_distrib, ih hcov']
    congr 1
    cases hp : p r with
    | false => simp
    | true =>
      cases hkr : key r with
      | none => simp
      | some k0 =>
        have hk0 : k0 ∈ keys := hcov r (List.mem_cons_self _ _) k0 hkr
        have hrw : ∀ x ∈ keys,
            (if (true && decide (some k0 = some x)) = true then (1 : ℕ) else 0)
              = if k0 = x then 1 else 0 := by
          intro x _
          by_cases hx : k0 = x <;> simp [hx]
        rw [List.map_congr_left hrw, sum_map_ite_eq keys hnd k0 hk0]
        simp

/-! ### C2 -/

/-- C2: the summary has one row per distinct defined key value (no value
appears twice, every defined value appears, undefined values never form a
group); each row's `searches` is its partition's size (hence positive), its
`bookings` counts the partition's booked records, its `conversion_rate` is
`100 * bookings / searches`, and records with an undefined key belong to no
partition. -/
theorem C2_conversion_rate_groupwise {K : Type} [LinearOrder K]
    (key : EnrichedRecord → Option K) (df : List EnrichedRecord) :
    (∀ k : K, (∃ row ∈ calculate_conversion_rate key df, row.key = k) ↔
      ∃ r ∈ df, key r = some k) ∧
    ((calculate_conversion_rate key df).map GroupRow.key).Nodup ∧
    (∀ row ∈ calculate_conversion_rate key df,
      row.searches = (df.filter fun r => key r = some row.key).length ∧
      0 < row.searches ∧
      row.bookings = (df.filter fun r => key r = some row.key).countP
        (fun r => r.is_booking) ∧
      row.conversion_rate = 100 * (row.bookings : ℚ) / (row.searches : ℚ)) ∧
    (∀ r ∈ df, key r = none → ∀ row ∈ calculate_conversion_rate key df,
      r ∉ df.filter fun r' => key r' = some row.key) := by
  refine ⟨?_, ?_, ?_, ?_⟩
  · intro k
    constructor
    · rintro ⟨row, hrow, hkey⟩
      rcases List.mem_map.mp hrow with ⟨k', hk', rfl⟩
      have hkk : k' = k := hkey
      exact (mem_groupKeys key df k).mp (hkk ▸ hk')
    · intro hk
      exact ⟨groupRowFor key df k,
        List.mem_map_of_mem _ ((mem_groupKeys key df k).mpr hk), rfl⟩
  · rw [ccr_map_key]
    exact nodup_groupKeys key df
  · intro row hrow
    rcases List.mem_map.mp hrow with ⟨k, hk, rfl⟩
    refine ⟨rfl, ?_, rfl, ?_⟩
    · rcases (mem_groupKeys key df k).mp hk with ⟨r, hr, hkr⟩
      have hmem : r ∈ df.filter fun r' => key r' = some k :=
        List.mem_filter.mpr ⟨hr, by simp [hkr]⟩
      exact List.length_pos.mpr (List.ne_nil_of_mem hmem)
    · have hc : (groupRowFor key df k).conversion_rate
          = (((df.filter fun r => key r = some k).countP fun r => r.is_booking : ℕ) : ℚ)
            / (((df.filter fun r => key r = some k).length : ℕ) : ℚ) * 100 := rfl
      have hb : (groupRowFor key df k).bookings
          = (df.filter fun r => key r = some k).countP fun r => r.is_booking := rfl
      have hs : (groupRowFor key df k).searches
          = (df.filter fun r => key r = some k).length := rfl
      rw [hc, hb, hs]
      ring
  · intro r _ hnone row _ hmem
    have := (List.mem_filter.mp hmem).2
    rw [hnone] at this
    simp at this

/-- A desktop non-package search by one adult, no booking. -/
def rowSoloSearch : RawRecord :=
  { date_time := .valid ⟨2014, 1, 10⟩
    srch_ci := .valid ⟨2014, 2, 41⟩
    srch_co := .valid ⟨2014, 2, 45⟩
    is_mobile := 0
    is_package := 0
    is_booking := false
    srch_adults_cnt := 1
    srch_children_cnt := 0
    orig_destination_distance := some 150
    user_location_country := 195
    hotel_market := 991 }

/-- A booked desktop non-package search by one adult. -/
def rowSoloBooking : RawRecord :=
  { rowSoloSearch with is_booking := true, date_time := .valid ⟨2014, 1, 12⟩ }

/-- A booked couple search. -/
def rowCoupleBooking : RawRecord :=
  { rowSoloSearch with is_booking := true, srch_adults_cnt := 2 }

/-- The three-record dataset used by the aggregation witnesses, grouped by
`srch_adults_cnt` (a total column, embedded as an everywhere-`some` key). -/
def dfAgg : List EnrichedRecord :=
  [enrichRow rowSoloSearch, enrichRow rowSoloBooking, enrichRow rowCoupleBooking]

/-- The grouping key for the aggregation witnesses. -/
def adultsKey (r : EnrichedRecord) : Option Nat := some r.srch_adults_cnt

/-- Concrete instance of C2: on `dfAgg` grouped by adults count, the group of
key 1 has two searches, one booking and a 50% conversion rate. -/
theorem C2_conversion_rate_groupwise_witness :
    groupRowFor adultsKey dfAgg 1 ∈ calculate_conversion_rate adultsKey dfAgg ∧
    (groupRowFor adultsKey dfAgg 1).searches = 2 ∧
    (groupRowFor adultsKey dfAgg 1).bookings = 1 ∧
    0 < (groupRowFor adultsKey dfAgg 1).searches ∧
    (groupRowFor adultsKey dfAgg 1).conversion_rate =
      100 * ((groupRowFor adultsKey dfAgg 1).bookings : ℚ)
        / ((groupRowFor adultsKey dfAgg 1).searches : ℚ) := by
  have hm : groupRowFor adultsKey dfAgg 1 ∈ calculate_conversion_rate adultsKey dfAgg := by
    unfold calculate_conversion_rate
    exact List.mem_map_of_mem _ (show (1 : ℕ) ∈ groupKeys adultsKey dfAgg by decide)
  have h := (C2_conversion_rate_groupwise adultsKey dfAgg).2.2.1 _ hm
  exact ⟨hm, by decide, by decide, h.2.1, h.2.2.2⟩

/-! ### C5 -/

/-- C5: summing `bookings` over the summary's groups gives the number of
booked input records whose grouping key is defined, and summing `searches`
gives the number of input records whose grouping key is defined. -/
theorem C5_group_totals_match_input {K : Type} [LinearOrder K]
    (key : EnrichedRecord → Option K) (df : List EnrichedRecord) :
    ((calculate_conversion_rate key df).map GroupRow.bookings).sum
      = df.countP (fun r => r.is_booking && (key r).isSome) ∧
    ((calculate_conversion_rate key df).map GroupRow.searches).sum
      = df.countP (fun r => (key r).isSome) := by
  have hnd := nodup_groupKeys key df
  have hcov : ∀ r ∈ df, ∀ k, key r = some k → k ∈ groupKeys key df :=
    fun r hr k hk => (mem_groupKeys key df k).mpr ⟨r, hr, hk⟩
  constructor
  · unfold calculate_conversion_rate
    rw [List.map_map]
    have hfun : GroupRow.bookings ∘ groupRowFor key df
        = fun k => df.countP fun r => r.is_booking && decide (key r = some k) := by
      funext k
      show (df.filter fun r => key r = some k).countP (fun r => r.is_booking) = _
      rw [List.countP_filter]
    rw [hfun, countP_partition_sum key _ df _ hnd hcov]
  · unfold calculate_conversion_rate
    rw [List.map_map]
    have hfun : GroupRow.searches ∘ groupRowFor key df
        = fun k => df.countP fun r => decide (key r = some k) := by
      funext k
      show (df.filter fun r => key r = some k).length = _
      rw [← List.countP_eq_length_filter]
    rw [hfun]
    have htrue : (fun k => df.countP fun r => decide (key r = some k))
        = fun k => df.countP fun r => (fun _ => true) r && decide (key r = some k) := by
      funext k
      simp
    rw [htrue, countP_partition_sum key _ df _ hnd hcov]
    simp

/-! ### C9 -/

/-- C9: the summary's rows are sorted in ascending order of the grouping
key's distinct values, and the summary depends only on the multiset of input
records, not on their order: any permutation of the input yields the
identical summary. -/
theorem C9_summary_sorted_by_key_and_order_independent {K : Type} [LinearOrder K]
    (key : EnrichedRecord → Option K) (df df' : List EnrichedRecord)
    (h : df.Perm df') :
    ((calculate_conversion_rate key df).map GroupRow.key).Sorted (· ≤ ·) ∧
    calculate_conversion_rate key df = calculate_conversion_rate key df' := by
  constructor
  · rw [ccr_map_key]
    exact sorted_groupKeys key df
  · unfold calculate_conversion_rate
    rw [groupKeys_perm key h]
    apply List.map_congr_left
    intro k _
    have hlen : (df.filter fun r => key r = some k).length
        = (df'.filter fun r => key r = some k).length := (h.filter _).length_eq
    have hcnt : (df.filter fun r => key r = some k).countP (fun r => r.is_booking)
        = (df'.filter fun r => key r = some k).countP (fun r => r.is_booking) :=
      (h.filter _).countP_eq _
    unfold groupRowFor
    rw [hlen, hcnt]

/-- Concrete instance of C9: reversing the two-record dataset leaves the
summary unchanged. -/
theorem C9_summary_sorted_by_key_and_order_independent_witness :
    List.Perm [enrichRow rowSoloBooking, enrichRow rowCoupleBooking]
      [enrichRow rowCoupleBooking, enrichRow rowSoloBooking] ∧
    calculate_conversion_rate adultsKey
        [enrichRow rowSoloBooking, enrichRow rowCoupleBooking]
      = calculate_conversion_rate adultsKey
        [enrichRow rowCoupleBooking, enrichRow rowSoloBooking] :=
  ⟨List.Perm.swap _ _ _,
   (C9_summary_sorted_by_key_and_order_independent adultsKey _ _
     (List.Perm.swap _ _ _)).2⟩

/-! ### C8 -/

instance {K : Type} : IsTotal (GroupRow K) rateGE :=
  ⟨fun a b => le_total b.conversion_rate a.conversion_rate⟩

instance {K : Type} : IsTrans (GroupRow K) rateGE :=
  ⟨fun _ _ _ hab hbc => le_trans hbc hab⟩

/-- C8: a top-N view keeps at most `n` groups, its output is sorted by
conversion rate in descending order, every shown group comes from the input
summary and has at least 100 searches, and no omitted group with at least 100
searches has a strictly higher rate than a shown one — so a group with fewer
than 100 searches never appears, however high its rate. -/
theorem C8_top_n_filters_then_ranks {K : Type} (n : Nat) (rows : List (GroupRow K)) :
    (topNByConversionRate n rows).length ≤ n ∧
    (topNByConversionRate n rows).Sorted rateGE ∧
    (∀ g ∈ topNByConversionRate n rows, g ∈ rows ∧ 100 ≤ g.searches) ∧
    (∀ g ∈ topNByConversionRate n rows, ∀ g' ∈ rows, 100 ≤ g'.searches →
      g' ∉ topNByConversionRate n rows →
      g'.conversion_rate ≤ g.conversion_rate) := by
  have hsort : (List.insertionSort rateGE
      (rows.filter fun g => 100 ≤ g.searches)).Sorted rateGE :=
    List.sorted_insertionSort _ _
  have hperm : (List.insertionSort rateGE
      (rows.filter fun g => 100 ≤ g.searches)).Perm
        (rows.filter fun g => 100 ≤ g.searches) :=
    List.perm_insertionSort _ _
  refine ⟨List.length_take_le _ _, ?_, ?_, ?_⟩
  · exact List.Pairwise.sublist (List.take_sublist _ _) hsort
  · intro g hg
    have hgs := hperm.mem_iff.mp (List.mem_of_mem_take hg)
    have := List.mem_filter.mp hgs
    exact ⟨this.1, by simpa using this.2⟩
  · intro g hg g' hg' h100 hnot
    have hs' : g' ∈ List.insertionSort rateGE
        (rows.filter fun x => 100 ≤ x.searches) :=
      hperm.mem_iff.mpr (List.mem_filter.mpr ⟨hg', by simpa using h100⟩)
    rw [← List.take_append_drop n (List.insertionSort rateGE
      (rows.filter fun x => 100 ≤ x.searches))] at hs'
    rcases List.mem_append.mp hs' with hin | hdrop
    · exact absurd hin hnot
    · have hpw := hsort
      rw [← List.take_append_drop n (List.insertionSort rateGE
        (rows.filter fun x => 100 ≤ x.searches))] at hpw
      exact (List.pairwise_append.mp hpw).2.2 g hg g' hdrop

/-- A high-volume group with a mid conversion rate. -/
def gBig : GroupRow Nat := ⟨1, 200, 50, 25⟩

/-- A tiny group with a perfect conversion rate: five searches, five
bookings. -/
def gTiny : GroupRow Nat := ⟨2, 5, 5, 100⟩

/-- Another high-volume group with a low conversion rate. -/
def gLow : GroupRow Nat := ⟨3, 150, 15, 10⟩

/-- Concrete instance of C8: with `n = 2`, the 100%-rate group of five
searches is dropped by the volume floor while both high-volume groups are
shown, sorted by descending rate. -/
theorem C8_top_n_filters_then_ranks_witness :
    topNByConversionRate 2 [gTiny, gLow, gBig] = [gBig, gLow] ∧
    gTiny ∉ topNByConversionRate 2 [gTiny, gLow, gBig] ∧
    gBig ∈ topNByConversionRate 2 [gTiny, gLow, gBig] ∧
    (gBig ∈ [gTiny, gLow, gBig] ∧ 100 ≤ gBig.searches) := by
  have h := (C8_top_n_filters_then_ranks 2 [gTiny, gLow, gBig]).2.2.1 gBig (by decide)
  exact ⟨by decide, by decide, by decide, h⟩

end DBBT
